import Mathlib

/- Shallow embedding of the tissue-culture tracker (src/explant.py).
   The SQLite tables of init_db become lists of structures; DATE columns become
   integer day numbers; TEXT becomes String; nullable columns become Option.
   Each operation below is translated from the named helper function or form
   submit handler of the source file. -/

namespace TissueCulture

/-- Row of the orders table (schema lines 34-49). completed is stored as 0/1 in
SQLite and modelled as Bool; completion_date is nullable. -/
structure Order where
  id : Nat
  clientName : String
  cultivar : String
  numPlants : Nat
  plantSize : String
  orderDate : Int
  deliveryQuantity : Option Nat
  isRecurring : Bool
  completed : Bool
  completionDate : Option Int
  notes : String
  deriving Repr, DecidableEq

/-- Row of the explant_batches table (schema lines 64-89); pathogen_status is a
nullable column added by migration. -/
structure Batch where
  id : Nat
  orderId : Option Nat
  batchName : String
  numExplants : Nat
  explantType : String
  mediaType : String
  hormones : Option String
  additionalElements : Option String
  initiationDate : Int
  notes : String
  pathogenStatus : Option String
  deriving Repr, DecidableEq

/-- Row of the infection_records table (schema lines 92-111). num_infected is the
legacy NOT NULL aggregate; num_lost and num_affected are nullable columns added
by migration, so legacy rows hold NULL there. -/
structure InfectionRecord where
  id : Nat
  batchId : Nat
  numInfected : Nat
  numLost : Option Nat
  numAffected : Option Nat
  infectionType : String
  identificationDate : Int
  notes : String
  deriving Repr, DecidableEq

/-- Row of the transfer_records table (schema lines 114-130). -/
structure TransferRecord where
  id : Nat
  batchId : Nat
  parentTransferId : Option Nat
  transferDate : Int
  explantsIn : Nat
  explantsOut : Nat
  newMedia : String
  hormones : Option String
  additionalElements : Option String
  multiplicationOccurred : Bool
  notes : String
  deriving Repr, DecidableEq

/-- Row of the rooting_records table (schema lines 142-156). transfer_id,
num_rooted and rooting_date are nullable. -/
structure RootingRecord where
  id : Nat
  transferId : Option Nat
  batchId : Nat
  numPlaced : Nat
  placementDate : Int
  numRooted : Option Nat
  rootingDate : Option Int
  notes : String
  deriving Repr, DecidableEq

/-- Row of the delivery_records table (schema lines 159-172). -/
structure DeliveryRecord where
  id : Nat
  orderId : Option Nat
  batchId : Option Nat
  numDelivered : Nat
  deliveryDate : Int
  deliveryMethod : String
  notes : String
  deriving Repr, DecidableEq

/-- Row of the labels table (schema lines 175-191). -/
structure LabelRecord where
  id : Nat
  orderId : Nat
  labelUuid : String
  clientName : String
  cultivar : String
  orderDate : Int
  initiationDate : Int
  stages : String
  pathogenStatus : Option String
  numLabels : Nat
  notes : String
  deriving Repr, DecidableEq

/-- The whole database: one list per table. -/
structure Store where
  orders : List Order
  batches : List Batch
  infections : List InfectionRecord
  transfers : List TransferRecord
  rootings : List RootingRecord
  deliveries : List DeliveryRecord
  labels : List LabelRecord
  deriving Repr, DecidableEq

/-- get_total_infections_for_batch (lines 310-318):
SELECT COALESCE(SUM(COALESCE(num_lost, num_infected)), 0) FROM infection_records
WHERE batch_id = ?. The inner COALESCE is a per-row fallback to the legacy
aggregate; the outer one makes the empty sum 0. -/
def get_total_infections_for_batch (recs : List InfectionRecord) (batchId : Nat) : Nat :=
  ((recs.filter (fun r => r.batchId == batchId)).map
    (fun r => r.numLost.getD r.numInfected)).sum

/-- The remaining-healthy figure computed by the contamination form
(lines 1362-1364): remaining = num_explants - total_lost. It can be negative in
Python, hence Int. -/
def healthy_remaining (batch : Batch) (recs : List InfectionRecord) : Int :=
  (batch.numExplants : Int) - get_total_infections_for_batch recs batch.id

/-- add_infection_record (lines 284-296): inserts a row storing
num_infected = num_lost + num_affected as the legacy aggregate next to the
two explicit fields. -/
def add_infection_record (recs : List InfectionRecord) (newId batchId : Nat)
    (numLost numAffected : Nat) (infectionType : String) (identificationDate : Int)
    (notes : String) : List InfectionRecord :=
  recs ++ [{ id := newId, batchId := batchId, numInfected := numLost + numAffected,
             numLost := some numLost, numAffected := some numAffected,
             infectionType := infectionType, identificationDate := identificationDate,
             notes := notes : InfectionRecord }]

/-- Submit handler of the Record Contamination form (lines 1393-1403): rejects a
record with num_lost = 0 and num_affected = 0, then accepts exactly when
remaining >= num_lost, where remaining is the figure of healthy_remaining.
none models the rejected operation (st.error), some the accepted insert. -/
def infectionFormSubmit (recs : List InfectionRecord) (batch : Batch) (newId : Nat)
    (numLost numAffected : Nat) (infectionType : String) (identificationDate : Int)
    (notes : String) : Option (List InfectionRecord) :=
  let totalLost := get_total_infections_for_batch recs batch.id
  let remaining : Int := (batch.numExplants : Int) - totalLost
  if numLost = 0 ∧ numAffected = 0 then none
  else if (numLost : Int) ≤ remaining then
    some (add_infection_record recs newId batch.id numLost numAffected infectionType
      identificationDate notes)
  else none

/-- Result of get_batch_summary (lines 774-806). -/
structure BatchSummary where
  batch : Batch
  totalInfected : Nat
  totalTransferred : Nat
  healthy : Int
  deriving Repr, DecidableEq

/-- get_batch_summary (lines 774-806): total_infected is
SELECT COALESCE(SUM(num_infected), 0) over the batch rows - the legacy
aggregate, not num_lost - and healthy is batch[3] - total_infected, that is
num_explants - total_infected. -/
def get_batch_summary (batches : List Batch) (recs : List InfectionRecord)
    (transfers : List TransferRecord) (batchId : Nat) : Option BatchSummary :=
  match (batches.filter (fun b => b.id == batchId)).head? with
  | none => none
  | some b =>
    let totalInfected := ((recs.filter (fun r => r.batchId == batchId)).map
      (fun r => r.numInfected)).sum
    let totalTransferred := ((transfers.filter (fun t => t.batchId == batchId)).map
      (fun t => t.explantsOut)).sum
    some { batch := b, totalInfected := totalInfected,
           totalTransferred := totalTransferred,
           healthy := (b.numExplants : Int) - totalInfected }

/-- update_explant_batch (lines 261-271): overwrites every listed column of the
matching row, unconditionally. -/
def update_explant_batch (batches : List Batch) (batchId : Nat) (orderId : Option Nat)
    (batchName : String) (numExplants : Nat) (explantType mediaType : String)
    (hormones additionalElements : Option String) (initiationDate : Int)
    (notes : String) (pathogenStatus : Option String) : List Batch :=
  batches.map (fun b =>
    if b.id == batchId then
      { b with
          orderId := orderId, batchName := batchName, numExplants := numExplants,
          explantType := explantType, mediaType := mediaType, hormones := hormones,
          additionalElements := additionalElements, initiationDate := initiationDate,
          notes := notes, pathogenStatus := pathogenStatus }
    else b)

/-- Submit handler of the Edit Batch form (lines 1319-1327): the only check is
that batch name and media type are non-empty strings; the recorded
contamination losses are never consulted. -/
def editBatchFormSubmit (batches : List Batch) (batchId : Nat) (orderId : Option Nat)
    (batchName : String) (numExplants : Nat) (explantType mediaType : String)
    (hormones additionalElements : Option String) (initiationDate : Int)
    (notes : String) (pathogenStatus : Option String) : Option (List Batch) :=
  if batchName ≠ "" ∧ mediaType ≠ "" then
    some (update_explant_batch batches batchId orderId batchName numExplants explantType
      mediaType hormones additionalElements initiationDate notes pathogenStatus)
  else none

/-- mark_order_completed (lines 752-761), effect on one row:
SET completed = 1, completion_date = ?. -/
def markOrderCompletedRow (completionDate : Int) (o : Order) : Order :=
  { o with completed := true, completionDate := some completionDate }

/-- mark_order_completed (lines 752-761) over the table. -/
def mark_order_completed (orders : List Order) (orderId : Nat)
    (completionDate : Int) : List Order :=
  orders.map (fun o => if o.id == orderId then markOrderCompletedRow completionDate o else o)

/-- mark_order_incomplete (lines 763-772), effect on one row:
SET completed = 0, completion_date = NULL. -/
def markOrderIncompleteRow (o : Order) : Order :=
  { o with completed := false, completionDate := none }

/-- mark_order_incomplete (lines 763-772) over the table. -/
def mark_order_incomplete (orders : List Order) (orderId : Nat) : List Order :=
  orders.map (fun o => if o.id == orderId then markOrderIncompleteRow o else o)

/-- The Archive page filter (line 3742): orders with completed == 1. -/
def completedOrdersView (orders : List Order) : List Order :=
  orders.filter (fun o => o.completed)

/-- The active-order filter used by the delivery and statistics pages
(lines 1016, 2293, 3236): orders with completed == 0. -/
def activeOrdersView (orders : List Order) : List Order :=
  orders.filter (fun o => !o.completed)

/-- delete_order (lines 230-235): DELETE FROM orders WHERE id = ?; no other
table is touched. -/
def delete_order (orders : List Order) (orderId : Nat) : List Order :=
  orders.filter (fun o => o.id != orderId)

/-- delete_order seen on the whole store: only the orders table changes. -/
def deleteOrderStore (s : Store) (orderId : Nat) : Store :=
  { s with orders := delete_order s.orders orderId }

/-- Order lookup of the Batch Timeline page (lines 3121-3124):
order_info = orders[orders.id == order_id].iloc[0] if not orders.empty else None.
When the orders table is non-empty but the referenced id is gone, .iloc[0] runs
on an empty selection and raises IndexError, modelled as Except.error. -/
def timelineOrderLookup (orders : List Order) (orderId : Option Nat) :
    Except String (Option Order) :=
  match orderId with
  | none => Except.ok none
  | some oid =>
    if orders.isEmpty then Except.ok none
    else
      match (orders.filter (fun o => o.id == oid)).head? with
      | none => Except.error "IndexError"
      | some o => Except.ok (some o)

/-- Order resolution of the Edit Batch form (lines 1247-1256): a dangling
order_id falls back to the None entry of the select box, so the batch renders
as unlinked. -/
def editBatchDefaultOrder (orders : List Order) (orderId : Option Nat) : Option Order :=
  match orderId with
  | none => none
  | some oid => (orders.filter (fun o => o.id == oid)).head?

/-- Cumulative num_placed over the rooting records of one transfer, as computed
by the Record Rooting form (lines 1910-1917) from
get_rooting_records(transfer_id=...). -/
def cumulative_num_placed_for_transfer (rootings : List RootingRecord)
    (transferId : Nat) : Nat :=
  ((rootings.filter (fun r => r.transferId == some transferId)).map
    (fun r => r.numPlaced)).sum

/-- add_rooting_record (lines 385-395): plain insert. -/
def add_rooting_record (rootings : List RootingRecord) (newId : Nat)
    (transferId : Option Nat) (batchId numPlaced : Nat) (placementDate : Int)
    (numRooted : Option Nat) (rootingDate : Option Int) (notes : String) :
    List RootingRecord :=
  rootings ++ [{ id := newId, transferId := transferId, batchId := batchId,
                 numPlaced := numPlaced, placementDate := placementDate,
                 numRooted := numRooted, rootingDate := rootingDate, notes := notes }]

/-- Submit handler of the Record Rooting form (lines 1910-1947): remaining is
explants_out minus the already-placed total for the chosen transfer; the insert
happens exactly when num_placed <= remaining. num_rooted is stored as NULL
unless it is positive (line 1942). -/
def rootingFormSubmit (rootings : List RootingRecord) (newId : Nat)
    (transfer : TransferRecord) (numPlaced : Nat) (placementDate : Int)
    (numRooted : Nat) (rootingDate : Option Int) (notes : String) :
    Option (List RootingRecord) :=
  let alreadyPlaced := cumulative_num_placed_for_transfer rootings transfer.id
  let remaining : Int := (transfer.explantsOut : Int) - alreadyPlaced
  if (numPlaced : Int) ≤ remaining then
    some (add_rooting_record rootings newId (some transfer.id) transfer.batchId numPlaced
      placementDate (if numRooted > 0 then some numRooted else none) rootingDate notes)
  else none

/-- update_rooting_record (lines 397-406):
SET num_rooted = ?, rooting_date = ? on the matching row. -/
def update_rooting_record (rootings : List RootingRecord) (recordId : Nat)
    (numRooted : Option Nat) (rootingDate : Option Int) : List RootingRecord :=
  rootings.map (fun r =>
    if r.id == recordId then { r with numRooted := numRooted, rootingDate := rootingDate }
    else r)

/-- Submit handler of the Update Rooting Status form (lines 1998-2017): the
number-rooted input is capped by the widget at the selected records num_placed
(line 2005-2007); the stored value is the raw integer, zero included. -/
def updateRootingStatusSubmit (rootings : List RootingRecord) (recordId : Nat)
    (newNumRooted : Nat) (newRootingDate : Int) : List RootingRecord :=
  update_rooting_record rootings recordId (some newNumRooted) (some newRootingDate)

/-- update_rooting_record_full (lines 408-417): overwrites every column of the
matching row. -/
def update_rooting_record_full (rootings : List RootingRecord) (recordId : Nat)
    (transferId : Option Nat) (batchId numPlaced : Nat) (placementDate : Int)
    (numRooted : Option Nat) (rootingDate : Option Int) (notes : String) :
    List RootingRecord :=
  rootings.map (fun r =>
    if r.id == recordId then
      { id := r.id, transferId := transferId, batchId := batchId, numPlaced := numPlaced,
        placementDate := placementDate, numRooted := numRooted, rootingDate := rootingDate,
        notes := notes }
    else r)

/-- Submit handler of the Edit Rooting Record form (lines 2076-2090): num_placed
is only bounded below by 1 by its widget, and the update is applied with no
check against the transfer explants_out; num_rooted is stored as NULL unless
positive (line 2088). -/
def editRootingFormSubmit (rootings : List RootingRecord) (recordId : Nat)
    (transferId : Option Nat) (batchId numPlaced : Nat) (placementDate : Int)
    (numRooted : Nat) (rootingDate : Option Int) (notes : String) : List RootingRecord :=
  update_rooting_record_full rootings recordId transferId batchId numPlaced placementDate
    (if numRooted > 0 then some numRooted else none) rootingDate notes

/-- The stored-record bound of the rooting invariant: when num_rooted is set it
does not exceed num_placed. -/
def rootingInvB (r : RootingRecord) : Bool :=
  match r.numRooted with
  | none => true
  | some n => n ≤ r.numPlaced

/-- One bar of the Gantt chart: a row appended to gantt_data (Cultivar, Task,
Start, Finish, Duration), dates as day numbers. -/
structure GanttItem where
  cultivar : String
  task : String
  start : Int
  finish : Int
  duration : Int
  deriving Repr, DecidableEq

/-- One row of filtered_batches in the Gantt walk (lines 2827-2854): the batch
joined with its order; orderCompletion is the completion date resolved in
lines 2846-2854 (set only when the owning order is completed with a date). -/
structure GanttBatch where
  id : Nat
  cultivar : String
  orderDate : Int
  initiationDate : Int
  orderCompletion : Option Int
  deriving Repr, DecidableEq

/-- Insertion step for sortByKey. -/
def insertSortedBy {α : Type} (key : α → Int) (x : α) : List α → List α
  | [] => [x]
  | y :: ys => if key x ≤ key y then x :: y :: ys else y :: insertSortedBy key x ys

/-- Ascending sort by an integer key, modelling sort_values on a date column. -/
def sortByKey {α : Type} (key : α → Int) (xs : List α) : List α :=
  xs.foldr (insertSortedBy key) []

/-- The per-transfer walk of the Gantt loop (lines 2900-2930): prev_date starts
at init_end; before each transfer a Passive Time row is emitted when the
transfer lies more than one day past prev_date, with Start = prev_date; then the
one-day transfer marker, and prev_date moves to the day after the transfer. -/
def ganttTransferWalk (cultivar : String) (sorted : List TransferRecord)
    (st : List GanttItem × Int) : List GanttItem × Int :=
  sorted.foldl
    (fun st t =>
      let rows := if t.transferDate > st.2 + 1 then
          st.1 ++ [⟨cultivar, "Passive Time", st.2, t.transferDate, t.transferDate - st.2⟩]
        else st.1
      let task := "Transfer #" ++ toString t.id ++ ": " ++ t.newMedia ++ " (" ++
        toString t.explantsIn ++ toString t.explantsOut ++ ", Mult: " ++
        (if t.multiplicationOccurred then "Yes" else "No") ++ ")"
      (rows ++ [⟨cultivar, task, t.transferDate, t.transferDate + 1, 1⟩],
       t.transferDate + 1))
    st

/-- The rooting walk of the Gantt loop (lines 2932-2984), nested inside the
transfers branch: placement marker with its gap, then, when a rooting date is
present, the completion marker with its gap. -/
def ganttRootingWalk (cultivar : String) (sorted : List RootingRecord)
    (st : List GanttItem × Int) : List GanttItem × Int :=
  sorted.foldl
    (fun st r =>
      let rows := if r.placementDate > st.2 + 1 then
          st.1 ++ [⟨cultivar, "Passive Time", st.2, r.placementDate, r.placementDate - st.2⟩]
        else st.1
      let rows := rows ++ [⟨cultivar, "Rooting Placement: " ++ toString r.numPlaced ++
        " placed", r.placementDate, r.placementDate + 1, 1⟩]
      let prev := r.placementDate + 1
      match r.rootingDate with
      | none => (rows, prev)
      | some rd =>
        let rows := if rd > prev + 1 then
            rows ++ [⟨cultivar, "Passive Time", prev, rd, rd - prev⟩]
          else rows
        (rows ++ [⟨cultivar, "Rooting Complete: " ++ toString (r.numRooted.getD 0) ++
          " rooted", rd, rd + 1, 1⟩], rd + 1))
    st

/-- The delivery walk of the Gantt loop (lines 2986-3012). -/
def ganttDeliveryWalk (cultivar : String) (sorted : List DeliveryRecord)
    (st : List GanttItem × Int) : List GanttItem × Int :=
  sorted.foldl
    (fun st d =>
      let rows := if d.deliveryDate > st.2 + 1 then
          st.1 ++ [⟨cultivar, "Passive Time", st.2, d.deliveryDate, d.deliveryDate - st.2⟩]
        else st.1
      (rows ++ [⟨cultivar, "Delivery: " ++ toString d.numDelivered ++ " delivered",
        d.deliveryDate, d.deliveryDate + 1, 1⟩], d.deliveryDate + 1))
    st

/-- One iteration of the per-batch Gantt loop body (lines 2827-3033). The state
carries the rows gathered so far and the Python local prev_date, which persists
from one iteration to the next and is unassigned (Option.none) until a
transfers branch first sets it; the delivery and completion blocks read it and
would raise NameError when it is unassigned, modelled as Except.error. -/
def ganttBatchStep (transfers : List TransferRecord) (rootings : List RootingRecord)
    (deliveries : List DeliveryRecord) (st : List GanttItem × Option Int)
    (b : GanttBatch) : Except String (List GanttItem × Option Int) :=
  let batchTransfers := transfers.filter (fun t => t.batchId == b.id)
  let batchRooting := rootings.filter (fun r => r.batchId == b.id)
  let batchDeliveries := deliveries.filter (fun d => d.batchId == some b.id)
  let rows := st.1 ++ [⟨b.cultivar, "Order Received", b.orderDate, b.orderDate + 1, 1⟩]
  let rows := if b.initiationDate > b.orderDate + 1 then
      rows ++ [⟨b.cultivar, "Passive Time", b.orderDate + 1, b.initiationDate,
        b.initiationDate - (b.orderDate + 1)⟩]
    else rows
  let initEnd := b.initiationDate + 1
  let rows := rows ++ [⟨b.cultivar, "Explant Initiation", b.initiationDate, initEnd, 1⟩]
  let st1 : List GanttItem × Option Int :=
    match sortByKey (fun t => t.transferDate) batchTransfers with
    | [] => (rows, st.2)
    | first :: rest =>
      let rows := if first.transferDate > initEnd then
          rows ++ [⟨b.cultivar, "Passive Time", initEnd, first.transferDate,
            first.transferDate - initEnd⟩]
        else rows
      let stT := ganttTransferWalk b.cultivar (first :: rest) (rows, initEnd)
      let stR := if batchRooting.isEmpty then stT
        else ganttRootingWalk b.cultivar (sortByKey (fun r => r.placementDate) batchRooting) stT
      (stR.1, some stR.2)
  let st2 : Except String (List GanttItem × Option Int) :=
    if batchDeliveries.isEmpty then Except.ok st1
    else
      match st1.2 with
      | none => Except.error "NameError: prev_date"
      | some p =>
        let stD := ganttDeliveryWalk b.cultivar
          (sortByKey (fun d => d.deliveryDate) batchDeliveries) (st1.1, p)
        Except.ok (stD.1, some stD.2)
  match st2 with
  | Except.error e => Except.error e
  | Except.ok stx =>
    match b.orderCompletion with
    | none => Except.ok stx
    | some oc =>
      match stx.2 with
      | none => Except.error "NameError: prev_date"
      | some p =>
        let rows := if oc > p + 1 then
            stx.1 ++ [⟨b.cultivar, "Passive Time", p, oc, oc - p⟩]
          else stx.1
        Except.ok (rows ++ [⟨b.cultivar, "Order Completed", oc, oc + 1, 1⟩], stx.2)

/-- The whole Gantt assembly (lines 2824-3044). The no-transfers block at lines
3034-3044 is the else of the for loop at line 2827 (a for/else, and the loop
holds no break), so it runs exactly once after the loop, reading cultivar and
init_date from the last iteration; with no batches those names are unassigned
and Python would raise NameError. -/
def buildGanttData (batches : List GanttBatch) (transfers : List TransferRecord)
    (rootings : List RootingRecord) (deliveries : List DeliveryRecord)
    (today : Int) : Except String (List GanttItem) :=
  match batches.foldlM (ganttBatchStep transfers rootings deliveries) ([], none) with
  | Except.error e => Except.error e
  | Except.ok st =>
    match batches.getLast? with
    | none => Except.error "NameError: cultivar"
    | some last =>
      Except.ok (if today > last.initiationDate + 1 then
          st.1 ++ [⟨last.cultivar, "Passive Time", last.initiationDate + 1, today,
            today - last.initiationDate - 1⟩]
        else st.1)

/-- Batch of the worked example in claim C1: initial count 100. -/
def c1Batch : Batch := ⟨1, none, "B1", 100, "Shoot tip", "MS", none, none, 0, "", none⟩

/-- One prior contamination record with 30 lost, so 70 remain healthy. -/
def c1Recs : List InfectionRecord := [⟨1, 1, 30, some 30, some 0, "Bacterial", 5, ""⟩]

/-- The table after the accepted num_lost = 70 record. -/
def c1RecsAccepted : List InfectionRecord :=
  c1Recs ++ [⟨2, 1, 70, some 70, some 0, "Bacterial", 6, ""⟩]

/-- Batch for the summary-divergence input of claim C2. -/
def c2Batch : Batch := ⟨1, none, "B2", 100, "Shoot tip", "MS", none, none, 0, "", none⟩

/-- One record with num_lost = 2, num_affected = 3, hence num_infected = 5. -/
def c2Recs : List InfectionRecord := [⟨1, 1, 5, some 2, some 3, "Bacterial", 10, ""⟩]

/-- The summary the code produces for that state: healthy = 100 - 5 = 95. -/
def c2Summary : BatchSummary := ⟨c2Batch, 5, 0, 95⟩

/-- A legacy contamination row: num_lost NULL, num_infected = 12. -/
def c3LegacyRec : InfectionRecord := ⟨1, 1, 12, none, none, "Fungal", 3, ""⟩

/-- Transfer with explants_out = 50 for the rooting-bound example of claim C4. -/
def c4Transfer : TransferRecord :=
  ⟨1, 1, none, 4, 40, 50, "Rooting Media", none, none, false, ""⟩

/-- The table after the accepted num_placed = 30 record. -/
def c4Rootings1 : List RootingRecord := [⟨1, some 1, 1, 30, 5, none, none, ""⟩]

/-- The record after the unchecked edit raises num_placed to 60. -/
def c4EditedRec : RootingRecord := ⟨1, some 1, 1, 60, 5, none, none, ""⟩

/-- Transfer with explants_out = 50 for the num_rooted example of claim C5. -/
def c5Transfer : TransferRecord :=
  ⟨2, 1, none, 3, 50, 50, "Rooting Media", none, none, false, ""⟩

/-- The record the add path stores for num_placed = 5, num_rooted = 10. -/
def c5Rec : RootingRecord := ⟨1, some 2, 1, 5, 3, some 10, none, ""⟩

/-- A rooting record whose stored bound holds, for the edit-path witness. -/
def c5GoodRec : RootingRecord := ⟨3, some 2, 1, 8, 3, none, none, ""⟩

/-- Batch of claim C6: order and initiation on day 0. -/
def c6Batch : GanttBatch := ⟨1, "X", 0, 0, none⟩

/-- Its first transfer five days after initiation. -/
def c6Transfer : TransferRecord :=
  ⟨1, 1, none, 5, 10, 10, "Fresh Media", none, none, false, ""⟩

/-- The initiation-to-first-transfer gap bar, four days from day 1 to day 5. -/
def c6GapItem : GanttItem := ⟨"X", "Passive Time", 1, 5, 4⟩

/-- The rows the assembler emits for claim C6 with today = 6: the gap bar
appears twice, once from the block before the transfer loop and once from the
first loop step. -/
def c6Rows : List GanttItem :=
  [⟨"X", "Order Received", 0, 1, 1⟩,
   ⟨"X", "Explant Initiation", 0, 1, 1⟩,
   ⟨"X", "Passive Time", 1, 5, 4⟩,
   ⟨"X", "Passive Time", 1, 5, 4⟩,
   ⟨"X", "Transfer #1: Fresh Media (1010, Mult: No)", 5, 6, 1⟩,
   ⟨"X", "Passive Time", 1, 6, 5⟩]

/-- First batch of claim C7: no transfers at all. -/
def c7BatchA : GanttBatch := ⟨1, "A", 0, 0, none⟩

/-- Second batch of claim C7: one transfer. -/
def c7BatchB : GanttBatch := ⟨2, "B", 3, 3, none⟩

/-- The transfer of batch B, one day after its initiation. -/
def c7Transfer : TransferRecord :=
  ⟨1, 2, none, 4, 8, 8, "Multiplication Media", none, none, false, ""⟩

/-- The rows the assembler emits for claim C7 with today = 10: no passive bar
at all for transfer-less batch A, and an initiation-to-today passive bar for
batch B although B has a transfer. -/
def c7Rows : List GanttItem :=
  [⟨"A", "Order Received", 0, 1, 1⟩,
   ⟨"A", "Explant Initiation", 0, 1, 1⟩,
   ⟨"B", "Order Received", 3, 4, 1⟩,
   ⟨"B", "Explant Initiation", 3, 4, 1⟩,
   ⟨"B", "Transfer #1: Multiplication Media (88, Mult: No)", 4, 5, 1⟩,
   ⟨"B", "Passive Time", 4, 10, 6⟩]

/-- An open order, for the completion round-trip witness. -/
def c8Order : Order := ⟨1, "Acme", "Apple", 10, "Small", 0, none, false, false, none, ""⟩

/-- An order that survives the deletion in claim C9. -/
def c9Order1 : Order := ⟨1, "Acme", "Apple", 10, "Small", 0, none, false, false, none, ""⟩

/-- The order that gets deleted in claim C9 while a batch still references it. -/
def c9Order2 : Order := ⟨2, "Birch", "Pear", 5, "Large", 1, none, false, false, none, ""⟩

/-- Batch of claim C10 before the edit: initial count 100. -/
def c10Batch : Batch := ⟨1, none, "B1", 100, "Shoot tip", "MS", none, none, 0, "", none⟩

/-- Its accepted contamination record: 70 lost. -/
def c10Recs : List InfectionRecord := [⟨1, 1, 70, some 70, some 0, "Fungal", 20, ""⟩]

/-- The batch after the edit lowers num_explants to 50. -/
def c10EditedBatch : Batch := ⟨1, none, "B1", 50, "Shoot tip", "MS", none, none, 0, "", none⟩

/-- Appending one infection record adds its per-row fallback value when its
batch matches, and nothing otherwise. -/
theorem total_infections_append (recs : List InfectionRecord) (r : InfectionRecord)
    (bid : Nat) :
    get_total_infections_for_batch (recs ++ [r]) bid =
      get_total_infections_for_batch recs bid +
        (if r.batchId = bid then r.numLost.getD r.numInfected else 0) := by
  simp only [get_total_infections_for_batch, List.filter_append, List.map_append,
    List.sum_append]
  by_cases h : r.batchId = bid <;> simp [h]

/-- Appending one rooting record adds its num_placed to the cumulative total of
its transfer, and nothing to other transfers. -/
theorem cumulative_placed_append (rootings : List RootingRecord) (r : RootingRecord)
    (tid : Nat) :
    cumulative_num_placed_for_transfer (rootings ++ [r]) tid =
      cumulative_num_placed_for_transfer rootings tid +
        (if r.transferId = some tid then r.numPlaced else 0) := by
  simp only [cumulative_num_placed_for_transfer, List.filter_append, List.map_append,
    List.sum_append]
  by_cases h : r.transferId = some tid <;> simp [h]

/-- Claim C1: the Record Contamination form rejects a record with num_lost = 0
and num_affected = 0, rejects one whose num_lost exceeds the current remaining
healthy count, and every accepted record leaves healthy_remaining nonnegative;
in the worked example (initial 100, 30 already lost) num_lost = 80 is rejected
while num_lost = 70 is accepted and leaves healthy_remaining = 0. -/
theorem contamination_record_invariant :
    (∀ recs batch newId it d n,
        infectionFormSubmit recs batch newId 0 0 it d n = none) ∧
    (∀ recs batch newId (numLost numAffected : Nat) it d n,
        (numLost : Int) > healthy_remaining batch recs →
        infectionFormSubmit recs batch newId numLost numAffected it d n = none) ∧
    (∀ recs batch newId (numLost numAffected : Nat) it d n recs2,
        infectionFormSubmit recs batch newId numLost numAffected it d n = some recs2 →
        0 ≤ healthy_remaining batch recs2) ∧
    infectionFormSubmit c1Recs c1Batch 2 80 0 "Bacterial" 6 "" = none ∧
    infectionFormSubmit c1Recs c1Batch 2 70 0 "Bacterial" 6 "" = some c1RecsAccepted ∧
    healthy_remaining c1Batch c1RecsAccepted = 0 := by
  refine ⟨?_, ?_, ?_, by decide, by decide, by decide⟩
  · intro recs batch newId it d n
    simp [infectionFormSubmit]
  · intro recs batch newId nl na it d n h
    simp only [healthy_remaining] at h
    simp only [infectionFormSubmit]
    split_ifs with h1 h2
    · rfl
    · omega
    · rfl
  · intro recs batch newId nl na it d n recs2 h
    simp only [infectionFormSubmit] at h
    split_ifs at h with h1 h2
    injection h with h
    subst h
    simp only [healthy_remaining, add_infection_record]
    rw [total_infections_append]
    have hb : (⟨newId, batch.id, nl + na, some nl, some na, it, d, n⟩ :
        InfectionRecord).batchId = batch.id := rfl
    rw [if_pos hb]
    simp only [Option.getD_some]
    omega

/-- Witness for contamination_record_invariant: the accepted 70-lost record of
the worked example leaves healthy_remaining nonnegative. -/
theorem contamination_record_invariant_witness :
    0 ≤ healthy_remaining c1Batch c1RecsAccepted :=
  contamination_record_invariant.2.2.1 c1Recs c1Batch 2 70 0 "Bacterial" 6 ""
    c1RecsAccepted (by decide)

/-- Claim C3: the gating total sums num_lost over the batch records with a
per-record fallback to the legacy num_infected when num_lost is NULL, is 0 with
no matching records, and a record with num_lost NULL and num_infected = 12
contributes exactly 12. -/
theorem total_lost_fallback_sum :
    (∀ bid, get_total_infections_for_batch [] bid = 0) ∧
    (∀ recs bid, (∀ r ∈ recs, r.batchId ≠ bid) →
        get_total_infections_for_batch recs bid = 0) ∧
    (∀ recs r bid n, r.batchId = bid → r.numLost = some n →
        get_total_infections_for_batch (recs ++ [r]) bid =
          get_total_infections_for_batch recs bid + n) ∧
    (∀ recs r bid, r.batchId = bid → r.numLost = none →
        get_total_infections_for_batch (recs ++ [r]) bid =
          get_total_infections_for_batch recs bid + r.numInfected) ∧
    (∀ recs r bid, r.batchId ≠ bid →
        get_total_infections_for_batch (recs ++ [r]) bid =
          get_total_infections_for_batch recs bid) ∧
    get_total_infections_for_batch [c3LegacyRec] 1 = 12 := by
  refine ⟨fun bid => rfl, ?_, ?_, ?_, ?_, by decide⟩
  · intro recs bid h
    have hf : recs.filter (fun r => r.batchId == bid) = [] := by
      rw [List.filter_eq_nil_iff]
      intro a ha
      simpa using h a ha
    simp [get_total_infections_for_batch, hf]
  · intro recs r bid n h1 h2
    rw [total_infections_append]
    simp [h1, h2]
  · intro recs r bid h1 h2
    rw [total_infections_append]
    simp [h1, h2]
  · intro recs r bid h
    rw [total_infections_append]
    simp [h]

/-- Witness for total_lost_fallback_sum: the legacy record with num_lost NULL
and num_infected = 12 contributes exactly its aggregate. -/
theorem total_lost_fallback_sum_witness :
    get_total_infections_for_batch ([] ++ [c3LegacyRec]) 1 =
      get_total_infections_for_batch [] 1 + c3LegacyRec.numInfected :=
  total_lost_fallback_sum.2.2.2.1 [] c3LegacyRec 1 rfl rfl

/-- Claim C2 (code bug): for a reachable state - one accepted record with
num_lost = 2 and num_affected = 3 on a 100-explant batch - the figure gating
new contamination entries is initial minus num_lost (98), but get_batch_summary
subtracts the legacy num_infected aggregate and reports healthy = 95, so the
two places disagree. -/
theorem batch_summary_healthy_diverges :
    infectionFormSubmit [] c2Batch 1 2 3 "Bacterial" 10 "" = some c2Recs ∧
    healthy_remaining c2Batch c2Recs = 98 ∧
    get_batch_summary [c2Batch] c2Recs [] 1 = some c2Summary ∧
    c2Summary.healthy = 95 ∧
    c2Summary.healthy ≠ healthy_remaining c2Batch c2Recs := by
  refine ⟨by decide, by decide, by decide, by decide, by decide⟩

/-- Claim C8: completing an open order and then reversing the completion
restores the row exactly - flag cleared, completion date NULL, every other
column untouched - so the order is again excluded from the Archive filter and
included in the active-order filter. -/
theorem order_completion_roundtrip (o : Order) (d : Int)
    (hc : o.completed = false) (hd : o.completionDate = none) :
    markOrderIncompleteRow (markOrderCompletedRow d o) = o ∧
    completedOrdersView [markOrderIncompleteRow (markOrderCompletedRow d o)] = [] ∧
    activeOrdersView [markOrderIncompleteRow (markOrderCompletedRow d o)] =
      [markOrderIncompleteRow (markOrderCompletedRow d o)] := by
  have h1 : markOrderIncompleteRow (markOrderCompletedRow d o) = o := by
    cases o
    simp_all [markOrderCompletedRow, markOrderIncompleteRow]
  refine ⟨h1, ?_, ?_⟩ <;>
    simp [completedOrdersView, activeOrdersView, h1, hc]

/-- Witness for order_completion_roundtrip at a concrete open order. -/
theorem order_completion_roundtrip_witness :
    markOrderIncompleteRow (markOrderCompletedRow 5 c8Order) = c8Order ∧
    completedOrdersView [markOrderIncompleteRow (markOrderCompletedRow 5 c8Order)] = [] ∧
    activeOrdersView [markOrderIncompleteRow (markOrderCompletedRow 5 c8Order)] =
      [markOrderIncompleteRow (markOrderCompletedRow 5 c8Order)] :=
  order_completion_roundtrip c8Order 5 rfl rfl

/-- Claim C9 (code bug): delete_order removes only the order row - the batches
and every other table of the store are untouched, so a dependent batch keeps
its dangling reference - and while the Edit Batch read path degrades the
dangling reference to unlinked, the Batch Timeline read path hits IndexError
(iloc[0] on an empty selection) once any other order remains. -/
theorem delete_order_frame_and_readpaths :
    (∀ s oid, (deleteOrderStore s oid).batches = s.batches ∧
        (deleteOrderStore s oid).infections = s.infections ∧
        (deleteOrderStore s oid).transfers = s.transfers ∧
        (deleteOrderStore s oid).rootings = s.rootings ∧
        (deleteOrderStore s oid).deliveries = s.deliveries ∧
        (deleteOrderStore s oid).labels = s.labels) ∧
    delete_order [c9Order1, c9Order2] 2 = [c9Order1] ∧
    editBatchDefaultOrder (delete_order [c9Order1, c9Order2] 2) (some 2) = none ∧
    timelineOrderLookup (delete_order [c9Order1, c9Order2] 2) (some 2) =
      Except.error "IndexError" :=
  ⟨fun s oid => ⟨rfl, rfl, rfl, rfl, rfl, rfl⟩, by decide, by decide, rfl⟩

/-- Claim C10: the Edit Batch submit applies the new num_explants whenever the
name and media fields are non-empty, never consulting the recorded losses; from
a reachable state (100-explant batch, accepted 70-lost record, healthy 30) the
edit down to 50 explants is accepted and leaves healthy_remaining at -20, so
the nonnegativity invariant survives contamination operations but not batch
edits. -/
theorem batch_edit_unvalidated_negative_healthy :
    (∀ batches batchId orderId batchName numExplants explantType mediaType hormones
        additionalElements initiationDate notes pathogenStatus,
        batchName ≠ "" → mediaType ≠ "" →
        editBatchFormSubmit batches batchId orderId batchName numExplants explantType
            mediaType hormones additionalElements initiationDate notes pathogenStatus =
          some (update_explant_batch batches batchId orderId batchName numExplants
            explantType mediaType hormones additionalElements initiationDate notes
            pathogenStatus)) ∧
    infectionFormSubmit [] c10Batch 1 70 0 "Fungal" 20 "" = some c10Recs ∧
    healthy_remaining c10Batch c10Recs = 30 ∧
    editBatchFormSubmit [c10Batch] 1 none "B1" 50 "Shoot tip" "MS" none none 0 "" none =
      some [c10EditedBatch] ∧
    healthy_remaining c10EditedBatch c10Recs = -20 := by
  refine ⟨?_, by decide, by decide, by decide, by decide⟩
  intro batches batchId orderId bn ne et mt hh ae idt n ps h1 h2
  simp [editBatchFormSubmit, h1, h2]

/-- Witness for batch_edit_unvalidated_negative_healthy: the concrete edit is
applied unconditionally. -/
theorem batch_edit_unvalidated_negative_healthy_witness :
    editBatchFormSubmit [c10Batch] 1 none "B1" 50 "Shoot tip" "MS" none none 0 "" none =
      some (update_explant_batch [c10Batch] 1 none "B1" 50 "Shoot tip" "MS" none none
        0 "" none) :=
  batch_edit_unvalidated_negative_healthy.1 [c10Batch] 1 none "B1" 50 "Shoot tip" "MS"
    none none 0 "" none (by decide) (by decide)

/-- Counterexample to claim C4 as stated: the Edit Rooting Record path is an
accepted rooting operation, yet editing the single 30-placed record of the
50-out transfer up to num_placed = 60 is applied and leaves the cumulative
placement for the transfer at 60 > 50. -/
theorem rooting_edit_breaks_bound :
    editRootingFormSubmit c4Rootings1 1 (some 1) 1 60 5 0 none "" = [c4EditedRec] ∧
    cumulative_num_placed_for_transfer [c4EditedRec] c4Transfer.id = 60 ∧
    c4Transfer.explantsOut = 50 :=
  ⟨by decide, by decide, rfl⟩

/-- Claim C4 amended: on the create path the Record Rooting form rejects a
placement whose cumulative total would pass explants_out and every accepted
insert keeps the cumulative total within the bound (for the 50-out transfer,
30 is accepted and a further 25 rejected); the Edit Rooting Record path,
however, applies the new num_placed as a raw update with no check against the
transfer, so an accepted edit can exceed the bound. -/
theorem rooting_placement_bound :
    (∀ rootings newId (t : TransferRecord) (np : Nat) pd nr rd n rootings2,
        rootingFormSubmit rootings newId t np pd nr rd n = some rootings2 →
        cumulative_num_placed_for_transfer rootings2 t.id ≤ t.explantsOut) ∧
    (∀ rootings newId (t : TransferRecord) (np : Nat) pd nr rd n,
        (cumulative_num_placed_for_transfer rootings t.id + np : Int) > t.explantsOut →
        rootingFormSubmit rootings newId t np pd nr rd n = none) ∧
    rootingFormSubmit [] 1 c4Transfer 30 5 0 none "" = some c4Rootings1 ∧
    rootingFormSubmit c4Rootings1 2 c4Transfer 25 6 0 none "" = none ∧
    (∀ rootings recordId tid bid (np : Nat) pd (nr : Nat) rd n,
        editRootingFormSubmit rootings recordId tid bid np pd nr rd n =
          update_rooting_record_full rootings recordId tid bid np pd
            (if nr > 0 then some nr else none) rd n) := by
  refine ⟨?_, ?_, by decide, by decide, fun _ _ _ _ _ _ _ _ _ => rfl⟩
  · intro rootings newId t np pd nr rd n rootings2 h
    simp only [rootingFormSubmit] at h
    split_ifs at h with h1 h2
    all_goals (
      injection h with h
      subst h
      simp only [add_rooting_record]
      rw [cumulative_placed_append, if_pos rfl]
      show cumulative_num_placed_for_transfer rootings t.id + np ≤ t.explantsOut
      omega)
  · intro rootings newId t np pd nr rd n h
    simp only [rootingFormSubmit]
    split_ifs with h1
    · exfalso; omega
    · rfl

/-- Witness for rooting_placement_bound: the accepted 30-placed record stays
within the 50-out transfer bound. -/
theorem rooting_placement_bound_witness :
    cumulative_num_placed_for_transfer c4Rootings1 c4Transfer.id ≤
      c4Transfer.explantsOut :=
  rooting_placement_bound.1 [] 1 c4Transfer 30 5 0 none "" c4Rootings1 (by decide)

/-- Counterexample to claim C5 as stated: the Record Rooting add path accepts
num_placed = 5 together with num_rooted = 10 and stores the record, violating
num_rooted less-or-equal num_placed. -/
theorem rooting_add_breaks_rooted_bound :
    rootingFormSubmit [] 1 c5Transfer 5 3 10 none "" = some [c5Rec] ∧
    c5Rec.numRooted = some 10 ∧ c5Rec.numPlaced = 5 ∧ rootingInvB c5Rec = false :=
  ⟨by decide, rfl, rfl, by decide⟩

/-- Claim C5 amended: the quick status update and the full edit keep every
stored rooting record satisfying num_rooted less-or-equal num_placed, because
their widgets cap the input at the record num_placed; the add path stores
num_rooted with no bound, so a freshly added record can violate it. -/
theorem rooting_rooted_bound_paths :
    (∀ rootings recordId (nr : Nat) d,
        (∀ r ∈ rootings, r.id = recordId → nr ≤ r.numPlaced) →
        rootings.all rootingInvB = true →
        (updateRootingStatusSubmit rootings recordId nr d).all rootingInvB = true) ∧
    (∀ rootings recordId tid bid (np : Nat) pd (nr : Nat) rd n,
        nr ≤ np →
        rootings.all rootingInvB = true →
        (editRootingFormSubmit rootings recordId tid bid np pd nr rd n).all
          rootingInvB = true) ∧
    rootingFormSubmit [] 1 c5Transfer 5 3 10 none "" = some [c5Rec] ∧
    [c5Rec].all rootingInvB = false := by
  refine ⟨?_, ?_, by decide, by decide⟩
  · intro rootings recordId nr d hcap hall
    simp only [updateRootingStatusSubmit, update_rooting_record, List.all_map]
    rw [List.all_eq_true] at hall ⊢
    intro r hr
    simp only [Function.comp_apply]
    by_cases hid : r.id = recordId
    · rw [if_pos (by simpa using hid)]
      have := hcap r hr hid
      simp [rootingInvB, this]
    · rw [if_neg (by simpa using hid)]
      exact hall r hr
  · intro rootings recordId tid bid np pd nr rd n hle hall
    simp only [editRootingFormSubmit, update_rooting_record_full, List.all_map]
    rw [List.all_eq_true] at hall ⊢
    intro r hr
    simp only [Function.comp_apply]
    by_cases hid : r.id = recordId
    · rw [if_pos (by simpa using hid)]
      by_cases hnr : nr > 0
      · simp [rootingInvB, hnr, hle]
      · simp [rootingInvB, hnr]
    · rw [if_neg (by simpa using hid)]
      exact hall r hr

/-- Witness for rooting_rooted_bound_paths: a concrete full edit with
num_rooted below num_placed keeps every stored record within the bound. -/
theorem rooting_rooted_bound_paths_witness :
    (editRootingFormSubmit [c5GoodRec] 3 (some 2) 1 8 3 6 none "").all
      rootingInvB = true :=
  rooting_rooted_bound_paths.2.1 [c5GoodRec] 3 (some 2) 1 8 3 6 none ""
    (by decide) (by decide)

/-- Claim C6 (code bug): for initiation day 0 and first transfer day 5 the
assembler emits the four-day passive bar from day 1 to day 5 twice - once from
the initiation-to-first-transfer block and once from the first step of the
transfer loop, whose prev_date restarts at init_end - instead of exactly
once. -/
theorem gantt_duplicate_initiation_gap :
    buildGanttData [c6Batch] [c6Transfer] [] [] 6 = Except.ok c6Rows ∧
    c6Rows.count c6GapItem = 2 :=
  ⟨rfl, by decide⟩

/-- Claim C7 (code bug): the no-transfers block is the else of the per-batch
for loop, so it runs exactly once after the loop against the last iterated
batch; transfer-less batch A gets no initiation-to-today passive bar at all,
while batch B, which has a transfer, gets one. -/
theorem gantt_no_transfer_passive_misplaced :
    buildGanttData [c7BatchA, c7BatchB] [c7Transfer] [] [] 10 = Except.ok c7Rows ∧
    c7Rows.filter (fun g => g.cultivar == "A" && g.task == "Passive Time") = [] ∧
    c7Rows.count (⟨"B", "Passive Time", 4, 10, 6⟩ : GanttItem) = 1 :=
  ⟨rfl, by decide, by decide⟩

end TissueCulture
